import Mathlib

/-
Verification of the pagination state machine of react-native-infinite-scroll.

The definitions below are a shallow embedding of the TypeScript sources:
  - src/domain/types/infinite-scroll-state.ts        (ScrollState)
  - src/domain/types/infinite-scroll-config.ts       (config union, PaginatedResult)
  - src/presentation/hooks/useInfiniteScroll.ts      (createInitialState, the four
      operations, the isLoadingRef reentrancy guard, canLoadMore)
  - src/presentation/hooks/pagination.helper.ts      (loadData, loadMoreData)
  - src/domain/entities/InfiniteScrollUtils.ts       (calculateEndReachedThreshold,
      hasMoreItems)
  - src/application/services/infinite-scroll.service.ts (checkHasMore)
  - src/application/services/state-manager.service.ts   (reset)

Caller-supplied fetch functions are external inputs; their outcomes appear as
nondeterministic parameters of the step relation.  JavaScript numbers used for
the threshold computation are modelled as rationals; page indices as integers.
-/

namespace InfiniteScroll

/-- Result shape returned by a cursor-mode fetch (PaginatedResult in
infinite-scroll-config.ts). -/
structure PaginatedResult (T : Type) where
  items : List T
  nextCursor : Option String
  hasMore : Bool
deriving DecidableEq

/-- The accumulated pagination state (InfiniteScrollState in
infinite-scroll-state.ts).  The JS field cursor: string | null is an
Option String; error: string | null likewise; totalItems?: number is an
Option Nat. -/
structure ScrollState (T : Type) where
  items : List T
  pages : List (List T)
  currentPage : Int
  cursor : Option String
  hasMore : Bool
  isLoading : Bool
  isLoadingMore : Bool
  isRefreshing : Bool
  error : Option String
  totalItems : Option Nat
deriving DecidableEq

/-- Which variant of the configuration union is in use (page-based vs the
paginationMode: "cursor" discriminator checked by isCursorMode). -/
inductive PaginationMode : Type
  | page
  | cursor
deriving DecidableEq

/-- The configuration fields the hook actually reads after defaulting
(pageSize, initialPage, totalItems, autoLoad) together with the resolved
pagination mode.  Fetch functions are supplied externally as step inputs. -/
structure HookConfig : Type where
  mode : PaginationMode
  pageSize : Nat
  initialPage : Int
  totalItems : Option Nat
  autoLoad : Bool
deriving DecidableEq

/-- createInitialState from useInfiniteScroll.ts: every field empty or false,
except hasMore and isLoading which are unconditionally true. -/
def createInitialState (T : Type) (initialPage : Int) (totalItems : Option Nat) :
    ScrollState T :=
  { items := []
    pages := []
    currentPage := initialPage
    cursor := none
    hasMore := true
    isLoading := true
    isLoadingMore := false
    isRefreshing := false
    error := none
    totalItems := totalItems }

/-- JavaScript truthiness test used on the cursor field: both null/undefined
and the empty string are falsy. -/
def jsFalsyStr : Option String → Bool
  | none => true
  | some s => s = ""

/-- Page-mode branch of loadData in pagination.helper.ts, applied to a
successful fetchData result.  The fetch is issued with the configured
initial page; hasMore is data.length >= pageSize. -/
def loadDataPage (cfg : HookConfig) (T : Type) (data : List T) : ScrollState T :=
  { items := data
    pages := [data]
    currentPage := cfg.initialPage
    cursor := none
    hasMore := decide (cfg.pageSize ≤ data.length)
    isLoading := false
    isLoadingMore := false
    isRefreshing := false
    error := none
    totalItems := cfg.totalItems }

/-- Cursor-mode branch of loadData in pagination.helper.ts, applied to a
successful fetchCursor result: hasMore and nextCursor are taken verbatim
from the result. -/
def loadDataCursor (cfg : HookConfig) (T : Type) (res : PaginatedResult T) :
    ScrollState T :=
  { items := res.items
    pages := [res.items]
    currentPage := 0
    cursor := res.nextCursor
    hasMore := res.hasMore
    isLoading := false
    isLoadingMore := false
    isRefreshing := false
    error := none
    totalItems := cfg.totalItems }

/-- Page-mode branch of loadMoreData in pagination.helper.ts.  snap is the
state captured by the loadMore closure when the fetch was issued, prev is
the state the partial update is merged into (setState prev => {...prev,
...updates}).  items is recomputed as newPages.flat(). -/
def loadMoreDataPage (pageSize : Nat) {T : Type} (snap : ScrollState T)
    (data : List T) (prev : ScrollState T) : ScrollState T :=
  { prev with
    items := (snap.pages ++ [data]).flatten
    pages := snap.pages ++ [data]
    currentPage := snap.currentPage + 1
    hasMore := decide (pageSize ≤ data.length)
    isLoadingMore := false
    error := none }

/-- Cursor-mode branch of loadMoreData in pagination.helper.ts: the new batch
is appended to the captured items and pages, and cursor/hasMore come from
the fetch result. -/
def loadMoreDataCursor {T : Type} (snap : ScrollState T) (res : PaginatedResult T)
    (prev : ScrollState T) : ScrollState T :=
  { prev with
    items := snap.items ++ res.items
    pages := snap.pages ++ [res.items]
    cursor := res.nextCursor
    hasMore := res.hasMore
    isLoadingMore := false
    error := none }

/-- hasMoreItems from InfiniteScrollUtils.ts: lastPage.length >= pageSize;
the allPages argument is accepted and ignored, exactly as in the source. -/
def hasMoreItems {T : Type} (lastPage : List T) (allPages : List (List T))
    (pageSize : Nat) : Bool :=
  decide (pageSize ≤ lastPage.length)

/-- checkHasMore from infinite-scroll.service.ts: use the caller-supplied
override when configured, otherwise fall back to hasMoreItems. -/
def checkHasMore {T : Type} (override : Option (List T → List (List T) → Bool))
    (pageSize : Nat) (lastPage : List T) (allPages : List (List T)) : Bool :=
  match override with
  | some f => f lastPage allPages
  | none => hasMoreItems lastPage allPages pageSize

/-- The canLoadMore value computed by the hook (and identically by
StateManagerService.canLoadMore): hasMore and neither isLoadingMore nor
isLoading. -/
def canLoadMore {T : Type} (s : ScrollState T) : Bool :=
  s.hasMore && !s.isLoadingMore && !s.isLoading

/-- calculateEndReachedThreshold from InfiniteScrollUtils.ts.  The JS guard
if (!threshold) treats both an absent argument and 0 as falsy, returning
defaultThreshold; otherwise the result is Math.max(0.01, Math.min(1.0,
threshold / 100)). -/
def calculateEndReachedThreshold (threshold : Option ℚ) (defaultThreshold : ℚ) : ℚ :=
  match threshold with
  | none => defaultThreshold
  | some t => if t = 0 then defaultThreshold else max (1 / 100) (min 1 (t / 100))

/-- StateManagerService.reset from state-manager.service.ts: fresh all-empty
state with isLoading unconditionally true (the cursor field is omitted by
the source object literal, i.e. undefined). -/
def stateManagerReset (T : Type) (initialPage : Int) (totalItems : Option Nat) :
    ScrollState T :=
  { items := []
    pages := []
    currentPage := initialPage
    cursor := none
    hasMore := true
    isLoading := true
    isLoadingMore := false
    isRefreshing := false
    error := none
    totalItems := totalItems }

/-
The hook as a small-step machine.  A machine configuration holds the React
state, the isLoadingRef reentrancy guard, and the list of fetches that have
been issued but whose promise has not yet settled.  Each of the four
operations contributes a start step (the synchronous prefix up to and
including issuing the fetch) and, for the three fetching operations, a
completion step (the code after the await, with the fetch outcome as a
nondeterministic input; the finally block releases the guard).  reset is a
single synchronous step that does not touch outstanding promises.
-/

/-- An issued fetch awaiting settlement.  loadMore records the state snapshot
its closure captured, since loadMoreData reads that snapshot rather than the
state current at settlement time. -/
inductive Pending (T : Type) : Type
  | loadInitial
  | refresh
  | loadMore (snap : ScrollState T)
deriving DecidableEq

/-- Settlement of a fetch promise: page-mode data, cursor-mode result, or a
rejection carrying the derived error message. -/
inductive Outcome (T : Type) : Type
  | pageOk (data : List T)
  | cursorOk (res : PaginatedResult T)
  | fail (msg : String)
deriving DecidableEq

/-- A fetch outcome is well-typed for the configured pagination mode;
rejections can occur in either mode. -/
def outcomeMatches {T : Type} (mode : PaginationMode) : Outcome T → Bool
  | .pageOk _ => mode = PaginationMode.page
  | .cursorOk _ => mode = PaginationMode.cursor
  | .fail _ => true

/-- One hook instance: React state, the isLoadingRef guard, and outstanding
fetches (most recently issued first). -/
structure Machine (T : Type) where
  state : ScrollState T
  guard : Bool
  pending : List (Pending T)
deriving DecidableEq

/-- Machine at mount: createInitialState, guard clear, nothing in flight. -/
def initialMachine (cfg : HookConfig) (T : Type) : Machine T :=
  { state := createInitialState T cfg.initialPage cfg.totalItems
    guard := false
    pending := [] }

/-- Synchronous prefix of loadInitial: blocked when the guard is held,
otherwise acquires the guard, sets isLoading and clears error, and issues
the fetch.  The Bool records whether a fetch was issued. -/
def startLoadInitial {T : Type} (m : Machine T) : Machine T × Bool :=
  if m.guard then (m, false)
  else
    ({ state := { m.state with isLoading := true, error := none }
       guard := true
       pending := Pending.loadInitial :: m.pending }, true)

/-- Synchronous prefix of loadMore: silently returns when the guard is held,
hasMore is false, or isLoadingMore or isLoading is set; in cursor mode also
when the cursor is falsy.  Otherwise acquires the guard, sets isLoadingMore,
clears error, and issues the fetch with the current state as snapshot. -/
def startLoadMore (cfg : HookConfig) {T : Type} (m : Machine T) : Machine T × Bool :=
  if m.guard || !m.state.hasMore || m.state.isLoadingMore || m.state.isLoading then
    (m, false)
  else if cfg.mode = PaginationMode.cursor && jsFalsyStr m.state.cursor then
    (m, false)
  else
    ({ state := { m.state with isLoadingMore := true, error := none }
       guard := true
       pending := Pending.loadMore m.state :: m.pending }, true)

/-- Synchronous prefix of refresh: blocked only by the guard; otherwise
acquires it, sets isRefreshing, clears error, and issues the same fetch as
loadInitial. -/
def startRefresh {T : Type} (m : Machine T) : Machine T × Bool :=
  if m.guard then (m, false)
  else
    ({ state := { m.state with isRefreshing := true, error := none }
       guard := true
       pending := Pending.refresh :: m.pending }, true)

/-- reset: clears the guard and replaces the state with createInitialState;
outstanding promises are unaffected and will still settle. -/
def resetOp (cfg : HookConfig) {T : Type} (m : Machine T) : Machine T :=
  { state := createInitialState T cfg.initialPage cfg.totalItems
    guard := false
    pending := m.pending }

/-- State write performed when a pending fetch settles: loadInitial and
refresh replace the state wholesale with the loadData result on success and
merely clear their own flag and set error on failure; loadMore merges the
loadMoreData partial update computed from its captured snapshot, or clears
isLoadingMore and sets error on failure. -/
def applyCompletion (cfg : HookConfig) {T : Type} (p : Pending T) (o : Outcome T)
    (s : ScrollState T) : ScrollState T :=
  match p, o with
  | .loadInitial, .pageOk data => loadDataPage cfg T data
  | .loadInitial, .cursorOk res => loadDataCursor cfg T res
  | .loadInitial, .fail msg => { s with isLoading := false, error := some msg }
  | .refresh, .pageOk data => loadDataPage cfg T data
  | .refresh, .cursorOk res => loadDataCursor cfg T res
  | .refresh, .fail msg => { s with isRefreshing := false, error := some msg }
  | .loadMore snap, .pageOk data => loadMoreDataPage cfg.pageSize snap data s
  | .loadMore snap, .cursorOk res => loadMoreDataCursor snap res s
  | .loadMore snap, .fail msg => { s with isLoadingMore := false, error := some msg }

/-- Settle the i-th outstanding fetch with outcome o: apply its state write
and release the guard (the finally block), removing it from the pending
list.  Out-of-range indices leave the machine unchanged. -/
def completeAt (cfg : HookConfig) {T : Type} (m : Machine T) (i : Nat)
    (o : Outcome T) : Machine T :=
  match m.pending[i]? with
  | some p =>
      { state := applyCompletion cfg p o m.state
        guard := false
        pending := m.pending.eraseIdx i }
  | none => m

/-- Reachable machine configurations: any interleaving of operation starts,
resets, and settlements of outstanding fetches (in any order, with any
mode-consistent outcome). -/
inductive Reach (cfg : HookConfig) (T : Type) : Machine T → Prop
  | init : Reach cfg T (initialMachine cfg T)
  | stepLoadInitial {m : Machine T} :
      Reach cfg T m → Reach cfg T (startLoadInitial m).1
  | stepLoadMore {m : Machine T} :
      Reach cfg T m → Reach cfg T (startLoadMore cfg m).1
  | stepRefresh {m : Machine T} :
      Reach cfg T m → Reach cfg T (startRefresh m).1
  | stepReset {m : Machine T} :
      Reach cfg T m → Reach cfg T (resetOp cfg m)
  | stepComplete {m : Machine T} (i : Nat) (o : Outcome T)
      (ho : outcomeMatches cfg.mode o = true) :
      Reach cfg T m → Reach cfg T (completeAt cfg m i o)

/-- Reachability under the discipline that refresh is only invoked while
isLoading is clear and reset only while no fetch is outstanding; the other
steps are unrestricted. -/
inductive ReachD (cfg : HookConfig) (T : Type) : Machine T → Prop
  | init : ReachD cfg T (initialMachine cfg T)
  | stepLoadInitial {m : Machine T} :
      ReachD cfg T m → ReachD cfg T (startLoadInitial m).1
  | stepLoadMore {m : Machine T} :
      ReachD cfg T m → ReachD cfg T (startLoadMore cfg m).1
  | stepRefresh {m : Machine T} (hL : m.state.isLoading = false) :
      ReachD cfg T m → ReachD cfg T (startRefresh m).1
  | stepReset {m : Machine T} (hp : m.pending = []) :
      ReachD cfg T m → ReachD cfg T (resetOp cfg m)
  | stepComplete {m : Machine T} (i : Nat) (o : Outcome T)
      (ho : outcomeMatches cfg.mode o = true) :
      ReachD cfg T m → ReachD cfg T (completeAt cfg m i o)

/-- Number of operation-in-flight flags set in a state. -/
def flagCount {T : Type} (s : ScrollState T) : Nat :=
  (if s.isLoading then 1 else 0) + (if s.isLoadingMore then 1 else 0) +
    (if s.isRefreshing then 1 else 0)

/-
Invariant: items is the order-preserving flattening of pages.
-/

/-- A pending loadMore carries a snapshot that itself satisfies the
items-pages flattening equation; the other pending kinds carry nothing. -/
def snapOk {T : Type} : Pending T → Prop
  | .loadMore snap => snap.items = snap.pages.flatten
  | _ => True

/-- Strengthened flattening invariant over a machine configuration: the live
state satisfies it and so does every captured loadMore snapshot. -/
def JoinInv {T : Type} (m : Machine T) : Prop :=
  m.state.items = m.state.pages.flatten ∧ ∀ p ∈ m.pending, snapOk p

lemma joinInv_initial (cfg : HookConfig) (T : Type) :
    JoinInv (initialMachine cfg T) := by
  refine ⟨rfl, ?_⟩
  intro p hp
  simp [initialMachine] at hp

lemma joinInv_startLoadInitial {T : Type} {m : Machine T} (h : JoinInv m) :
    JoinInv (startLoadInitial m).1 := by
  obtain ⟨h1, h2⟩ := h
  unfold startLoadInitial
  split
  · exact ⟨h1, h2⟩
  · refine ⟨h1, ?_⟩
    intro p hp
    rcases List.mem_cons.mp hp with rfl | hp
    · trivial
    · exact h2 p hp

lemma joinInv_startRefresh {T : Type} {m : Machine T} (h : JoinInv m) :
    JoinInv (startRefresh m).1 := by
  obtain ⟨h1, h2⟩ := h
  unfold startRefresh
  split
  · exact ⟨h1, h2⟩
  · refine ⟨h1, ?_⟩
    intro p hp
    rcases List.mem_cons.mp hp with rfl | hp
    · trivial
    · exact h2 p hp

lemma joinInv_startLoadMore (cfg : HookConfig) {T : Type} {m : Machine T}
    (h : JoinInv m) : JoinInv (startLoadMore cfg m).1 := by
  obtain ⟨h1, h2⟩ := h
  unfold startLoadMore
  split
  · exact ⟨h1, h2⟩
  split
  · exact ⟨h1, h2⟩
  · refine ⟨h1, ?_⟩
    intro p hp
    rcases List.mem_cons.mp hp with rfl | hp
    · exact h1
    · exact h2 p hp

lemma joinInv_resetOp (cfg : HookConfig) {T : Type} {m : Machine T}
    (h : JoinInv m) : JoinInv (resetOp cfg m) := by
  exact ⟨rfl, h.2⟩

lemma joinInv_completeAt (cfg : HookConfig) {T : Type} {m : Machine T}
    (i : Nat) (o : Outcome T) (h : JoinInv m) :
    JoinInv (completeAt cfg m i o) := by
  obtain ⟨h1, h2⟩ := h
  unfold completeAt
  split
  case h_2 => exact ⟨h1, h2⟩
  case h_1 p heq =>
    have hpm : p ∈ m.pending := by
      obtain ⟨hlt, hget⟩ := List.getElem?_eq_some.mp heq
      exact hget ▸ List.getElem_mem hlt
    have hsnap : snapOk p := h2 p hpm
    refine ⟨?_, ?_⟩
    · cases p with
      | loadInitial =>
          cases o <;>
            simp [applyCompletion, loadDataPage, loadDataCursor, h1]
      | refresh =>
          cases o <;>
            simp [applyCompletion, loadDataPage, loadDataCursor, h1]
      | loadMore snap =>
          simp only [snapOk] at hsnap
          cases o <;>
            simp [applyCompletion, loadMoreDataPage, loadMoreDataCursor, h1, hsnap]
    · intro q hq
      exact h2 q (List.mem_of_mem_eraseIdx hq)

lemma joinInv_of_reach {cfg : HookConfig} {T : Type} {m : Machine T}
    (h : Reach cfg T m) : JoinInv m := by
  induction h with
  | init => exact joinInv_initial cfg T
  | stepLoadInitial _ ih => exact joinInv_startLoadInitial ih
  | stepLoadMore _ ih => exact joinInv_startLoadMore cfg ih
  | stepRefresh _ ih => exact joinInv_startRefresh ih
  | stepReset _ ih => exact joinInv_resetOp cfg ih
  | stepComplete i o ho _ ih => exact joinInv_completeAt cfg i o ih

/-
Flag exclusion under disciplined interleavings.
-/

/-- Which in-flight flag a pending operation owns, and that the other two
are clear, stated against the current state. -/
def pendFlags {T : Type} (s : ScrollState T) : Pending T → Prop
  | .loadInitial =>
      s.isLoading = true ∧ s.isLoadingMore = false ∧ s.isRefreshing = false
  | .refresh =>
      s.isRefreshing = true ∧ s.isLoading = false ∧ s.isLoadingMore = false
  | .loadMore _ =>
      s.isLoadingMore = true ∧ s.isLoading = false ∧ s.isRefreshing = false

/-- Inductive invariant for disciplined reachability: at most one flag is
set, the guard is held exactly while a fetch is outstanding, at most one
fetch is outstanding, an idle machine has isLoadingMore and isRefreshing
clear, and each outstanding fetch owns its flag exclusively. -/
def DInv {T : Type} (m : Machine T) : Prop :=
  flagCount m.state ≤ 1 ∧
  (m.guard = true ↔ m.pending ≠ []) ∧
  m.pending.length ≤ 1 ∧
  (m.pending = [] → m.state.isLoadingMore = false ∧ m.state.isRefreshing = false) ∧
  ∀ p ∈ m.pending, pendFlags m.state p

lemma dinv_initial (cfg : HookConfig) (T : Type) : DInv (initialMachine cfg T) := by
  refine ⟨?_, ?_, ?_, ?_, ?_⟩ <;>
    simp [initialMachine, createInitialState, flagCount]

lemma pending_nil_of_guard_false {T : Type} {m : Machine T}
    (hB : m.guard = true ↔ m.pending ≠ []) (hg : m.guard = false) :
    m.pending = [] := by
  by_contra hne
  have := hB.mpr hne
  simp [hg] at this

lemma dinv_startLoadInitial {T : Type} {m : Machine T} (h : DInv m) :
    DInv (startLoadInitial m).1 := by
  obtain ⟨hA, hB, hC, hD, hE⟩ := h
  by_cases hg : m.guard = true
  · simp only [startLoadInitial, hg, if_true]
    exact ⟨hA, hB, hC, hD, hE⟩
  · rw [Bool.not_eq_true] at hg
    have hp : m.pending = [] := pending_nil_of_guard_false hB hg
    obtain ⟨hM, hR⟩ := hD hp
    simp only [startLoadInitial, hg, Bool.false_eq_true, if_false, hp]
    refine ⟨?_, by simp, by simp, by simp, ?_⟩
    · simp [flagCount, hM, hR]
    · intro p hp'
      rcases List.mem_singleton.mp hp' with rfl
      exact ⟨rfl, hM, hR⟩

lemma dinv_startRefresh {T : Type} {m : Machine T}
    (hL : m.state.isLoading = false) (h : DInv m) :
    DInv (startRefresh m).1 := by
  obtain ⟨hA, hB, hC, hD, hE⟩ := h
  by_cases hg : m.guard = true
  · simp only [startRefresh, hg, if_true]
    exact ⟨hA, hB, hC, hD, hE⟩
  · rw [Bool.not_eq_true] at hg
    have hp : m.pending = [] := pending_nil_of_guard_false hB hg
    obtain ⟨hM, hR⟩ := hD hp
    simp only [startRefresh, hg, Bool.false_eq_true, if_false, hp]
    refine ⟨?_, by simp, by simp, by simp, ?_⟩
    · simp [flagCount, hM, hL]
    · intro p hp'
      rcases List.mem_singleton.mp hp' with rfl
      exact ⟨rfl, hL, hM⟩

lemma dinv_startLoadMore (cfg : HookConfig) {T : Type} {m : Machine T}
    (h : DInv m) : DInv (startLoadMore cfg m).1 := by
  obtain ⟨hA, hB, hC, hD, hE⟩ := h
  unfold startLoadMore
  split
  · exact ⟨hA, hB, hC, hD, hE⟩
  split
  · exact ⟨hA, hB, hC, hD, hE⟩
  · rename_i hcond _
    simp only [Bool.or_eq_true, not_or, Bool.not_eq_true, Bool.not_eq_false] at hcond
    obtain ⟨⟨⟨hg, hHM⟩, hM⟩, hL⟩ := hcond
    have hp : m.pending = [] := pending_nil_of_guard_false hB hg
    obtain ⟨_, hR⟩ := hD hp
    simp only [hp]
    refine ⟨?_, by simp, by simp, by simp, ?_⟩
    · simp [flagCount, hL, hR]
    · intro p hp'
      rcases List.mem_singleton.mp hp' with rfl
      exact ⟨rfl, hL, hR⟩

lemma dinv_resetOp (cfg : HookConfig) {T : Type} {m : Machine T}
    (hp : m.pending = []) (h : DInv m) : DInv (resetOp cfg m) := by
  refine ⟨?_, ?_, ?_, ?_, ?_⟩ <;>
    simp [resetOp, createInitialState, flagCount, hp]

lemma dinv_completeAt (cfg : HookConfig) {T : Type} {m : Machine T}
    (i : Nat) (o : Outcome T) (h : DInv m) : DInv (completeAt cfg m i o) := by
  obtain ⟨hA, hB, hC, hD, hE⟩ := h
  unfold completeAt
  split
  case h_2 => exact ⟨hA, hB, hC, hD, hE⟩
  case h_1 p heq =>
    obtain ⟨hlt, hget⟩ := List.getElem?_eq_some.mp heq
    have hi0 : i = 0 := by omega
    subst hi0
    have hpend : m.pending = [p] := by
      cases hm : m.pending with
      | nil => rw [hm] at heq; simp at heq
      | cons a t =>
          rw [hm] at heq hC
          simp at heq hC
          rw [heq, hC]
    have hpf : pendFlags m.state p := hE p (by simp [hpend])
    simp only [hpend, List.eraseIdx_cons_zero]
    refine ⟨?_, by simp, by simp, ?_, by simp⟩
    · cases p <;> cases o <;>
        simp_all [applyCompletion, loadDataPage, loadDataCursor, loadMoreDataPage,
          loadMoreDataCursor, flagCount, pendFlags]
    · intro _
      cases p <;> cases o <;>
        simp_all [applyCompletion, loadDataPage, loadDataCursor, loadMoreDataPage,
          loadMoreDataCursor, pendFlags]

lemma dinv_of_reachD {cfg : HookConfig} {T : Type} {m : Machine T}
    (h : ReachD cfg T m) : DInv m := by
  induction h with
  | init => exact dinv_initial cfg T
  | stepLoadInitial _ ih => exact dinv_startLoadInitial ih
  | stepLoadMore _ ih => exact dinv_startLoadMore cfg ih
  | stepRefresh hL _ ih => exact dinv_startRefresh hL ih
  | stepReset hp _ ih => exact dinv_resetOp cfg hp ih
  | stepComplete i o ho _ ih => exact dinv_completeAt cfg i o ih

/-
Claim theorems.
-/

/-- A plain page-mode configuration with the source defaults (pageSize 20,
initialPage 0, autoLoad true, no totalItems). -/
def cfgDefault : HookConfig :=
  { mode := PaginationMode.page
    pageSize := 20
    initialPage := 0
    totalItems := none
    autoLoad := true }

/-- C1: in every reachable configuration of the pagination state machine —
after construction and across any interleaving of loadInitial, loadMore,
refresh and reset starts, fetch settlements (success or failure) — the items
field equals the order-preserving flattening of the pages field. -/
theorem items_eq_flatten_pages_of_reach (cfg : HookConfig) (T : Type)
    (m : Machine T) (h : Reach cfg T m) :
    m.state.items = m.state.pages.flatten :=
  (joinInv_of_reach h).1

/-- Witness for C1 at a concrete reachable machine: initial load issued and
settled successfully with a two-item batch. -/
theorem items_eq_flatten_pages_witness :
    (completeAt cfgDefault (startLoadInitial (initialMachine cfgDefault Nat)).1 0
        (Outcome.pageOk [3, 7])).state.items =
      (completeAt cfgDefault (startLoadInitial (initialMachine cfgDefault Nat)).1 0
        (Outcome.pageOk [3, 7])).state.pages.flatten :=
  items_eq_flatten_pages_of_reach cfgDefault Nat _
    (Reach.stepComplete 0 (Outcome.pageOk [3, 7]) (by decide)
      (Reach.stepLoadInitial Reach.init))

/-- C2 counterexample: invoking refresh while the initial load's isLoading
flag is still set (the guard is free, so refresh proceeds) yields a
reachable state with both isLoading and isRefreshing true, so the three
flags are not mutually exclusive as claimed. -/
theorem refresh_during_initial_isLoading_sets_two_flags :
    Reach cfgDefault Nat (startRefresh (initialMachine cfgDefault Nat)).1 ∧
    (startRefresh (initialMachine cfgDefault Nat)).1.state.isLoading = true ∧
    (startRefresh (initialMachine cfgDefault Nat)).1.state.isRefreshing = true ∧
    flagCount (startRefresh (initialMachine cfgDefault Nat)).1.state = 2 :=
  ⟨Reach.stepRefresh Reach.init, by decide, by decide, by decide⟩

/-- C2 amended: at most one of isLoading, isLoadingMore, isRefreshing is true
in every state reachable by interleavings in which refresh is only invoked
while isLoading is false and reset is only invoked while no fetch is
outstanding; without these restrictions the code reaches states with two
flags set. -/
theorem at_most_one_flag_of_reachD (cfg : HookConfig) (T : Type) (m : Machine T)
    (h : ReachD cfg T m) : flagCount m.state ≤ 1 :=
  (dinv_of_reachD h).1

/-- Witness for amended C2 at a concrete disciplined trace: initial load
issued, settled, then loadMore issued. -/
theorem at_most_one_flag_witness :
    flagCount (startLoadMore cfgDefault
        (completeAt cfgDefault (startLoadInitial (initialMachine cfgDefault Nat)).1 0
          (Outcome.pageOk (List.replicate 20 5)))).1.state ≤ 1 :=
  at_most_one_flag_of_reachD cfgDefault Nat _
    (ReachD.stepLoadMore
      (ReachD.stepComplete 0 (Outcome.pageOk (List.replicate 20 5)) (by decide)
        (ReachD.stepLoadInitial ReachD.init)))

/-- A page-mode machine that has completed one successful initial load of a
full batch (20 items), so hasMore is true and nothing is in flight. -/
def readyMachine : Machine Nat :=
  completeAt cfgDefault (startLoadInitial (initialMachine cfgDefault Nat)).1 0
    (Outcome.pageOk (List.replicate 20 5))

/-- Page-mode configuration with pageSize 1 and a configured totalItems of 1. -/
def cfgTotalOne : HookConfig :=
  { mode := PaginationMode.page
    pageSize := 1
    initialPage := 0
    totalItems := some 1
    autoLoad := true }

/-- Machine of cfgTotalOne after a successful initial fetch of one item. -/
def machineTotalOne : Machine Nat :=
  completeAt cfgTotalOne (startLoadInitial (initialMachine cfgTotalOne Nat)).1 0
    (Outcome.pageOk [42])

/-- C3 counterexample: with totalItems = 1 and pageSize = 1 configured, a
successful fetch of one item loads totalItems-many items, yet hasMore is
true because the hook computes it solely from batch length and never reads
totalItems; the claimed gating totalLoadedSoFar < totalItems is absent. -/
theorem hasMore_not_gated_by_totalItems :
    Reach cfgTotalOne Nat machineTotalOne ∧
    machineTotalOne.state.hasMore = true ∧
    machineTotalOne.state.totalItems = some 1 ∧
    machineTotalOne.state.items.length = 1 ∧
    ¬machineTotalOne.state.items.length < 1 :=
  ⟨Reach.stepComplete 0 (Outcome.pageOk [42]) (by decide)
      (Reach.stepLoadInitial Reach.init),
    by decide, by decide, by decide, by decide⟩

/-- C3 amended: totalItems never refines hasMore.  In page-based mode every
successful fetch sets hasMore to batchLength >= pageSize, a value invariant
under any change of the configured totalItems, and hasMoreItems likewise
ignores everything but the last batch's length. -/
theorem hasMore_ignores_totalItems (cfg : HookConfig) (T : Type) (data : List T)
    (snap prev : ScrollState T) (t : Option Nat) :
    (loadDataPage cfg T data).hasMore = decide (cfg.pageSize ≤ data.length) ∧
    (loadMoreDataPage cfg.pageSize snap data prev).hasMore =
      decide (cfg.pageSize ≤ data.length) ∧
    (loadDataPage { cfg with totalItems := t } T data).hasMore =
      (loadDataPage cfg T data).hasMore ∧
    (∀ (allPages : List (List T)) (pageSize : Nat),
      hasMoreItems data allPages pageSize = decide (pageSize ≤ data.length)) :=
  ⟨rfl, rfl, rfl, fun _ _ => rfl⟩

/-- Page-mode configuration with pageSize 1 (no totalItems, no override in
the machine itself; the override below is what the hook fails to consult). -/
def cfgOverride : HookConfig :=
  { mode := PaginationMode.page
    pageSize := 1
    initialPage := 0
    totalItems := none
    autoLoad := true }

/-- A caller-supplied hasMore override that always answers false. -/
def overrideNever : Option (List Nat → List (List Nat) → Bool) :=
  some (fun _ _ => false)

/-- Machine of cfgOverride after a successful initial fetch of [7] and a
successful loadMore fetch of [8]. -/
def machineOverride : Machine Nat :=
  completeAt cfgOverride
    (startLoadMore cfgOverride
      (completeAt cfgOverride (startLoadInitial (initialMachine cfgOverride Nat)).1 0
        (Outcome.pageOk [7]))).1
    0 (Outcome.pageOk [8])

/-- C4 counterexample: with a constant-false hasMore override configured, a
successful page-based loadMore fetch still leaves hasMore = true, because
the hook's pagination helper computes batchLength >= pageSize and never
consults the override (only InfiniteScrollService.checkHasMore does). -/
theorem hook_ignores_hasMore_override :
    Reach cfgOverride Nat machineOverride ∧
    machineOverride.state.pages = [[7], [8]] ∧
    machineOverride.state.hasMore = true ∧
    checkHasMore overrideNever cfgOverride.pageSize [8] machineOverride.state.pages =
      false :=
  ⟨Reach.stepComplete 0 (Outcome.pageOk [8]) (by decide)
      (Reach.stepLoadMore
        (Reach.stepComplete 0 (Outcome.pageOk [7]) (by decide)
          (Reach.stepLoadInitial Reach.init))),
    by decide, by decide, rfl⟩

/-- C4 amended: after every successful page-based fetch the hook sets hasMore
to returnedBatch.length >= pageSize regardless of any configured override —
in particular a batch of exactly pageSize items yields true and a smaller
batch yields false — while the override is honored only by
InfiniteScrollService.checkHasMore, whose result is the override's answer
when configured and the same batch-length rule otherwise. -/
theorem hook_hasMore_batch_size_rule (cfg : HookConfig) (T : Type) (data : List T)
    (snap prev : ScrollState T) (f : List T → List (List T) → Bool)
    (lastPage : List T) (allPages : List (List T)) (pageSize : Nat) :
    (loadDataPage cfg T data).hasMore = decide (cfg.pageSize ≤ data.length) ∧
    (loadMoreDataPage cfg.pageSize snap data prev).hasMore =
      decide (cfg.pageSize ≤ data.length) ∧
    (data.length = cfg.pageSize →
      (loadMoreDataPage cfg.pageSize snap data prev).hasMore = true) ∧
    (data.length < cfg.pageSize →
      (loadMoreDataPage cfg.pageSize snap data prev).hasMore = false) ∧
    checkHasMore (some f) pageSize lastPage allPages = f lastPage allPages ∧
    checkHasMore none pageSize lastPage allPages =
      decide (pageSize ≤ lastPage.length) := by
  refine ⟨rfl, rfl, ?_, ?_, rfl, rfl⟩
  · intro h
    simp [loadMoreDataPage, h]
  · intro h
    simp [loadMoreDataPage]
    omega

/-- Witness for amended C4: a batch of exactly pageSize items yields hasMore
true and a one-item batch yields false, at pageSize 20. -/
theorem hook_hasMore_batch_size_rule_witness :
    (loadMoreDataPage cfgDefault.pageSize (createInitialState Nat 0 none)
        (List.replicate 20 1) (createInitialState Nat 0 none)).hasMore = true ∧
    (loadMoreDataPage cfgDefault.pageSize (createInitialState Nat 0 none) [1]
        (createInitialState Nat 0 none)).hasMore = false :=
  ⟨(hook_hasMore_batch_size_rule cfgDefault Nat (List.replicate 20 1)
      (createInitialState Nat 0 none) (createInitialState Nat 0 none)
      (fun _ _ => false) [] [] 20).2.2.1 (by decide),
   (hook_hasMore_batch_size_rule cfgDefault Nat [1]
      (createInitialState Nat 0 none) (createInitialState Nat 0 none)
      (fun _ _ => false) [] [] 20).2.2.2.1 (by decide)⟩

/-- C5: loadMore invoked while hasMore is false, or isLoading or
isLoadingMore is true, or the reentrancy guard is held, leaves the machine
unchanged and issues no fetch; and when a loadMore start does issue a fetch,
an immediately following loadMore issues none, so two back-to-back calls
perform exactly one fetch. -/
theorem loadMore_noop_when_blocked (cfg : HookConfig) (T : Type) (m : Machine T) :
    ((m.state.hasMore = false ∨ m.state.isLoading = true ∨
        m.state.isLoadingMore = true ∨ m.guard = true) →
      startLoadMore cfg m = (m, false)) ∧
    ((startLoadMore cfg m).2 = true →
      (startLoadMore cfg (startLoadMore cfg m).1).2 = false) := by
  constructor
  · intro h
    unfold startLoadMore
    rcases h with h | h | h | h <;> simp [h]
  · intro h2
    by_cases hc1 : (m.guard || !m.state.hasMore || m.state.isLoadingMore ||
        m.state.isLoading) = true
    · simp [startLoadMore, hc1] at h2
    · rw [Bool.not_eq_true] at hc1
      by_cases hc2 : (decide (cfg.mode = PaginationMode.cursor) &&
          jsFalsyStr m.state.cursor) = true
      · simp [startLoadMore, hc1, hc2] at h2
      · rw [Bool.not_eq_true] at hc2
        simp [startLoadMore, hc1, hc2]

/-- Witness for C5: at the initial state (isLoading true) loadMore is a
no-op; at a ready state the first loadMore issues a fetch and the second,
invoked before the first resolves, does not. -/
theorem loadMore_noop_when_blocked_witness :
    startLoadMore cfgDefault (initialMachine cfgDefault Nat) =
      (initialMachine cfgDefault Nat, false) ∧
    (startLoadMore cfgDefault readyMachine).2 = true ∧
    (startLoadMore cfgDefault (startLoadMore cfgDefault readyMachine).1).2 = false :=
  ⟨(loadMore_noop_when_blocked cfgDefault Nat (initialMachine cfgDefault Nat)).1
      (Or.inr (Or.inl (by decide))),
    by decide,
    (loadMore_noop_when_blocked cfgDefault Nat readyMachine).2 (by decide)⟩

/-- C6: when the fetch issued by loadMore or refresh rejects, the settlement
(which never throws: rejections are converted into state by the catch block)
sets error to the failure message, clears the operation's own flag, and
leaves items, pages, currentPage and cursor exactly as they were before the
fetch was issued. -/
theorem fetch_failure_preserves_data (cfg : HookConfig) (T : Type) (m : Machine T)
    (msg : String) :
    ((startLoadMore cfg m).2 = true →
      ((completeAt cfg (startLoadMore cfg m).1 0 (Outcome.fail msg)).state.error =
          some msg ∧
        (completeAt cfg (startLoadMore cfg m).1 0
            (Outcome.fail msg)).state.isLoadingMore = false ∧
        (completeAt cfg (startLoadMore cfg m).1 0 (Outcome.fail msg)).state.items =
          m.state.items ∧
        (completeAt cfg (startLoadMore cfg m).1 0 (Outcome.fail msg)).state.pages =
          m.state.pages ∧
        (completeAt cfg (startLoadMore cfg m).1 0
            (Outcome.fail msg)).state.currentPage = m.state.currentPage ∧
        (completeAt cfg (startLoadMore cfg m).1 0 (Outcome.fail msg)).state.cursor =
          m.state.cursor)) ∧
    ((startRefresh m).2 = true →
      ((completeAt cfg (startRefresh m).1 0 (Outcome.fail msg)).state.error =
          some msg ∧
        (completeAt cfg (startRefresh m).1 0
            (Outcome.fail msg)).state.isRefreshing = false ∧
        (completeAt cfg (startRefresh m).1 0 (Outcome.fail msg)).state.items =
          m.state.items ∧
        (completeAt cfg (startRefresh m).1 0 (Outcome.fail msg)).state.pages =
          m.state.pages ∧
        (completeAt cfg (startRefresh m).1 0
            (Outcome.fail msg)).state.currentPage = m.state.currentPage ∧
        (completeAt cfg (startRefresh m).1 0 (Outcome.fail msg)).state.cursor =
          m.state.cursor)) := by
  constructor
  · intro h2
    by_cases hc1 : (m.guard || !m.state.hasMore || m.state.isLoadingMore ||
        m.state.isLoading) = true
    · simp [startLoadMore, hc1] at h2
    · rw [Bool.not_eq_true] at hc1
      by_cases hc2 : (decide (cfg.mode = PaginationMode.cursor) &&
          jsFalsyStr m.state.cursor) = true
      · simp [startLoadMore, hc1, hc2] at h2
      · rw [Bool.not_eq_true] at hc2
        simp [startLoadMore, hc1, hc2, completeAt, applyCompletion]
  · intro h2
    by_cases hg : m.guard = true
    · simp [startRefresh, hg] at h2
    · rw [Bool.not_eq_true] at hg
      simp [startRefresh, hg, completeAt, applyCompletion]

/-- Witness for C6: a rejected loadMore and a rejected refresh at a ready
machine both leave the accumulated items untouched. -/
theorem fetch_failure_preserves_data_witness :
    (completeAt cfgDefault (startLoadMore cfgDefault readyMachine).1 0
        (Outcome.fail "network down")).state.items = readyMachine.state.items ∧
    (completeAt cfgDefault (startRefresh readyMachine).1 0
        (Outcome.fail "network down")).state.items = readyMachine.state.items :=
  ⟨((fetch_failure_preserves_data cfgDefault Nat readyMachine "network down").1
      (by decide)).2.2.1,
   ((fetch_failure_preserves_data cfgDefault Nat readyMachine "network down").2
      (by decide)).2.2.1⟩

/-- Cursor-mode configuration with the source defaults. -/
def cfgCursor : HookConfig :=
  { mode := PaginationMode.cursor
    pageSize := 20
    initialPage := 0
    totalItems := none
    autoLoad := true }

/-- First fetch result of Scenario B. -/
def resX : PaginatedResult String :=
  { items := ["x"], nextCursor := some "tok1", hasMore := true }

/-- Second fetch result of Scenario B. -/
def resY : PaginatedResult String :=
  { items := ["y"], nextCursor := none, hasMore := false }

/-- Scenario B machine after the successful initial cursor fetch. -/
def machineAfterX : Machine String :=
  completeAt cfgCursor (startLoadInitial (initialMachine cfgCursor String)).1 0
    (Outcome.cursorOk resX)

/-- Scenario B machine after the subsequent successful loadMore fetch. -/
def machineAfterY : Machine String :=
  completeAt cfgCursor (startLoadMore cfgCursor machineAfterX).1 0
    (Outcome.cursorOk resY)

/-- C7: in cursor mode every successful fetch settlement stores the
server-reported hasMore verbatim and adopts nextCursor as the new cursor;
a loadMore on a machine whose cursor is null is a no-op issuing no fetch;
and Scenario B (fetches answering ([x], "tok1", true) then ([y], null,
false)) ends with items = [x, y], after which a further loadMore is a
no-op. -/
theorem cursor_mode_hasMore_verbatim (T : Type) :
    (∀ (cfg : HookConfig) (p : Pending T) (res : PaginatedResult T)
        (s : ScrollState T),
      (applyCompletion cfg p (Outcome.cursorOk res) s).hasMore = res.hasMore ∧
      (applyCompletion cfg p (Outcome.cursorOk res) s).cursor = res.nextCursor) ∧
    (∀ (cfg : HookConfig) (m : Machine T), cfg.mode = PaginationMode.cursor →
      m.state.cursor = none → startLoadMore cfg m = (m, false)) ∧
    (Reach cfgCursor String machineAfterY ∧
      machineAfterY.state.items = ["x", "y"] ∧
      machineAfterY.state.pages = [["x"], ["y"]] ∧
      machineAfterY.state.hasMore = false ∧
      machineAfterY.state.cursor = none ∧
      (startLoadMore cfgCursor machineAfterX).2 = true ∧
      startLoadMore cfgCursor machineAfterY = (machineAfterY, false)) := by
  refine ⟨?_, ?_, ?_, ?_, ?_, ?_, ?_, ?_, ?_⟩
  · intro cfg p res s
    cases p <;> simp [applyCompletion, loadDataCursor, loadMoreDataCursor]
  · intro cfg m hmode hcur
    by_cases hc1 : (m.guard || !m.state.hasMore || m.state.isLoadingMore ||
        m.state.isLoading) = true
    · simp [startLoadMore, hc1]
    · rw [Bool.not_eq_true] at hc1
      simp [startLoadMore, hc1, hmode, hcur, jsFalsyStr]
  · exact Reach.stepComplete 0 (Outcome.cursorOk resY) (by decide)
      (Reach.stepLoadMore
        (Reach.stepComplete 0 (Outcome.cursorOk resX) (by decide)
          (Reach.stepLoadInitial Reach.init)))
  · decide
  · decide
  · decide
  · decide
  · decide
  · decide

/-- Witness for C7: the no-op clause applied to the concrete end state of
Scenario B, whose cursor is null. -/
theorem cursor_mode_hasMore_verbatim_witness :
    startLoadMore cfgCursor machineAfterY = (machineAfterY, false) :=
  (cursor_mode_hasMore_verbatim String).2.1 cfgCursor machineAfterY rfl (by decide)

/-- Page-mode configuration with autoLoad disabled. -/
def cfgNoAutoLoad : HookConfig :=
  { mode := PaginationMode.page
    pageSize := 20
    initialPage := 0
    totalItems := none
    autoLoad := false }

/-- C8 counterexample: with autoLoad disabled, the constructed state and the
state produced by reset (both the hook's and StateManagerService's) still
have isLoading = true — createInitialState sets it unconditionally and never
reads autoLoad — contradicting "false when autoLoad is disabled". -/
theorem initial_isLoading_ignores_autoLoad :
    cfgNoAutoLoad.autoLoad = false ∧
    (initialMachine cfgNoAutoLoad Nat).state.isLoading = true ∧
    (resetOp cfgNoAutoLoad (initialMachine cfgNoAutoLoad Nat)).state.isLoading = true ∧
    (stateManagerReset Nat 0 none).isLoading = true :=
  ⟨rfl, rfl, rfl, rfl⟩

/-- C8 amended: at machine construction and after every reset the state is
all-empty (no items, pages, cursor or error, hasMore true, no operation
flags except isLoading) with isLoading = true unconditionally, for every
autoLoad setting; StateManagerService.reset produces the same state. -/
theorem initial_and_reset_state (cfg : HookConfig) (T : Type) (m : Machine T) :
    (initialMachine cfg T).state = createInitialState T cfg.initialPage cfg.totalItems ∧
    (resetOp cfg m).state = createInitialState T cfg.initialPage cfg.totalItems ∧
    (createInitialState T cfg.initialPage cfg.totalItems).items = [] ∧
    (createInitialState T cfg.initialPage cfg.totalItems).pages = [] ∧
    (createInitialState T cfg.initialPage cfg.totalItems).cursor = none ∧
    (createInitialState T cfg.initialPage cfg.totalItems).error = none ∧
    (createInitialState T cfg.initialPage cfg.totalItems).hasMore = true ∧
    (createInitialState T cfg.initialPage cfg.totalItems).isLoading = true ∧
    (createInitialState T cfg.initialPage cfg.totalItems).isLoadingMore = false ∧
    (createInitialState T cfg.initialPage cfg.totalItems).isRefreshing = false ∧
    (createInitialState T cfg.initialPage cfg.totalItems).currentPage = cfg.initialPage ∧
    stateManagerReset T cfg.initialPage cfg.totalItems =
      createInitialState T cfg.initialPage cfg.totalItems :=
  ⟨rfl, rfl, rfl, rfl, rfl, rfl, rfl, rfl, rfl, rfl, rfl, rfl⟩

/-- C9 counterexample: a provided threshold of 0 is falsy in JavaScript, so
calculateEndReachedThreshold returns the default 0.1, not the claimed
clamp(0 / 100, 0.01, 1.0) = 0.01. -/
theorem threshold_zero_yields_default :
    calculateEndReachedThreshold (some 0) (1 / 10) = 1 / 10 ∧
    max ((1 : ℚ) / 100) (min 1 (0 / 100)) = 1 / 100 ∧
    (1 : ℚ) / 10 ≠ 1 / 100 :=
  ⟨by simp [calculateEndReachedThreshold], by norm_num, by norm_num⟩

/-- C9 amended: for every provided nonzero threshold the conversion returns
clamp(threshold / 100, 0.01, 1.0) — in particular any threshold above 100
yields 1.0 — while an absent or zero threshold yields the default fraction
(0.1 at the call sites). -/
theorem threshold_conversion_clamped (t d : ℚ) (h : t ≠ 0) :
    calculateEndReachedThreshold (some t) d = max (1 / 100) (min 1 (t / 100)) ∧
    calculateEndReachedThreshold none d = d ∧
    (100 < t → calculateEndReachedThreshold (some t) d = 1) := by
  refine ⟨by simp [calculateEndReachedThreshold, h], rfl, ?_⟩
  intro h100
  have h1 : (1 : ℚ) < t / 100 := (one_lt_div (by norm_num)).mpr h100
  rw [calculateEndReachedThreshold, if_neg h, min_eq_left h1.le,
    max_eq_right (by norm_num)]

/-- Witness for amended C9 at threshold 150: the conversion yields 1. -/
theorem threshold_conversion_clamped_witness :
    calculateEndReachedThreshold (some 150) (1 / 10) = 1 :=
  (threshold_conversion_clamped 150 (1 / 10) (by norm_num)).2.2 (by norm_num)

/-- C10: the hook's canLoadMore is true exactly when hasMore is true and
isLoadingMore and isLoading are false, and changing isRefreshing or error
leaves it unchanged, in every state. -/
theorem canLoadMore_iff (T : Type) (s : ScrollState T) :
    (canLoadMore s = true ↔
      (s.hasMore = true ∧ s.isLoadingMore = false ∧ s.isLoading = false)) ∧
    (∀ (r : Bool) (e : Option String),
      canLoadMore { s with isRefreshing := r, error := e } = canLoadMore s) := by
  constructor
  · simp [canLoadMore, Bool.and_eq_true, Bool.not_eq_true', and_assoc]
  · intro r e
    rfl

/-- Witness for C10 at the state reached by a successful full-batch initial
load, where canLoadMore is true. -/
theorem canLoadMore_iff_witness :
    canLoadMore readyMachine.state = true ↔
      (readyMachine.state.hasMore = true ∧
        readyMachine.state.isLoadingMore = false ∧
        readyMachine.state.isLoading = false) :=
  (canLoadMore_iff Nat readyMachine.state).1

end InfiniteScroll
